import Mathlib

/-!
Shallow embedding of the turn-processing core of the `ai-agent` repository:
the catalog engine (`src/tools/catalog/inventory.py`), the decision router and
its search handler (`src/agent/handlers/catalog.py`, `src/agent/router.py`),
the presenter (`src/agent/presenter.py`), the clarification guard
(`src/services/message_processor.py`), the conversation context
(`src/core/models.py`) and the in-memory session store
(`src/adapters/storage/local_adapter.py`).

Modelling conventions: Python `str` is `String` (lower/trim/title are modelled
over the ASCII range, which is what `Char.toLower`/`Char.toUpper` cover);
Python `int` is `Int`; monetary amounts (`float` in the source, used only in
order comparisons, never in arithmetic) are modelled as `Int`; `datetime`
values are abstract instants modelled as `Int` ticks, with `timedelta`
subtraction becoming `Int` subtraction; fallible functions return
`Except`/`Option`; the mutable in-memory session dict becomes explicit state
passing of a `String → Option ConversationContext` map.
-/

/-! ### Python string primitives -/

/-- Python `str.lower()` (ASCII letters), written over the character list so
that it stays transparent to proofs. -/
def pyLower (s : String) : String := String.mk (s.data.map Char.toLower)

/-- Drop leading whitespace from a character list. -/
def stripLeft : List Char → List Char
  | [] => []
  | c :: cs => if c.isWhitespace then stripLeft cs else c :: cs

/-- Python `str.strip()`: whitespace removed from both ends (kept
transparent to proofs, unlike the byte-based core `String.trim`). -/
def pyStrip (s : String) : String :=
  String.mk (stripLeft (stripLeft s.data.reverse).reverse)

/-- Python truthiness of an optional string: `None` and `""` are falsy. -/
def optStrTruthy : Option String → Bool
  | none => false
  | some s => !(s == "")

/-- One step of Python `str.title()`: an alphabetic character is uppercased
when the previous character was not alphabetic and lowercased otherwise. -/
def pyTitleGo : Bool → List Char → List Char
  | _, [] => []
  | prevCased, c :: cs =>
    if c.isAlpha then
      (if prevCased then c.toLower else c.toUpper) :: pyTitleGo true cs
    else
      c :: pyTitleGo false cs

/-- Python `str.title()` (ASCII letters). -/
def pyTitle (s : String) : String := String.mk (pyTitleGo false s.toList)

/-- `matchesAt needle hay`: `needle` occurs at the head of `hay`. -/
def matchesAt : List Char → List Char → Bool
  | [], _ => true
  | _ :: _, [] => false
  | a :: as, b :: bs => a == b && matchesAt as bs

/-- `hasSub needle hay`: `needle` is a contiguous substring of `hay`
(Python `needle in hay`). -/
def hasSub : List Char → List Char → Bool
  | needle, [] => needle.isEmpty
  | needle, c :: rest => matchesAt needle (c :: rest) || hasSub needle rest

/-- Python `needle in hay` on strings. -/
def strContainsSub (hay needle : String) : Bool := hasSub needle.toList hay.toList

/-- Digit-sequence value for Python `int(str)`: decimal digits with single
underscores allowed between digits only. -/
def digitsVal : Nat → List Char → Option Nat
  | acc, [] => some acc
  | acc, c :: cs =>
    if c.isDigit then digitsVal (acc * 10 + (c.toNat - 48)) cs
    else if c == '_' then
      match cs with
      | [] => none
      | d :: _ => if d.isDigit then digitsVal acc cs else none
    else none

/-- Unsigned part of Python `int(str)`: must start with a digit. -/
def parseUnsigned (cs : List Char) : Option Nat :=
  match cs with
  | [] => none
  | c :: _ => if c.isDigit then digitsVal 0 cs else none

/-- Python `int(s)` for a string argument: optional surrounding whitespace,
optional sign, decimal digits with underscores between digits. -/
def pyParseInt (s : String) : Option Int :=
  match (pyStrip s).toList with
  | '+' :: rest => (parseUnsigned rest).map Int.ofNat
  | '-' :: rest => (parseUnsigned rest).map (fun n => -(Int.ofNat n))
  | rest => (parseUnsigned rest).map Int.ofNat

/-- Insertion into a list sorted by the boolean relation `le`. -/
def insertBy (le : α → α → Bool) (x : α) : List α → List α
  | [] => [x]
  | y :: ys => if le x y then x :: y :: ys else y :: insertBy le x ys

/-- Insertion sort by the boolean relation `le` (stable; used to model
Python `sorted` and `heapq.nlargest`, whose keys below are totally ordered). -/
def sortBy (le : α → α → Bool) : List α → List α
  | [] => []
  | x :: xs => insertBy le x (sortBy le xs)

/-- Strict lexicographic code-point comparison of character lists
(Python string `<`; kept transparent to proofs, unlike `String.ltb`). -/
def charListLt : List Char → List Char → Bool
  | [], [] => false
  | [], _ :: _ => true
  | _ :: _, [] => false
  | a :: as, b :: bs =>
    if a.toNat < b.toNat then true
    else if b.toNat < a.toNat then false
    else charListLt as bs

/-- Lexicographic string order of Python (code-point comparison). -/
def strLe (a b : String) : Bool := !(charListLt b.data a.data)

/-- Python `sorted` over strings. -/
def sortStrings (l : List String) : List String := sortBy strLe l

/-! ### Catalog domain model (`src/domain/catalog`) -/

/-- A loaded catalog row (`VehicleRow` in `inventory.py`): the loader stores
`make`/`model` already stripped and lowercased. -/
structure VehicleRow where
  stock_id : Int
  make : String
  model : String
  year : Int
  km : Int
  price : Int
  version : String
  bluetooth : Bool
  car_play : Bool
deriving DecidableEq, Repr

/-- `VehicleSearchResult` (`src/domain/catalog/models.py`): the outward
vehicle record, with title-cased make/model. -/
structure VehicleSearchResult where
  stock_id : Int
  make : String
  model : String
  year : Int
  km : Int
  price : Int
  version : String
  bluetooth : Bool
  car_play : Bool
deriving DecidableEq, Repr

/-- `SearchResults` (`src/domain/catalog/models.py`). -/
structure SearchResults where
  results : List VehicleSearchResult
  total_count : Nat
deriving DecidableEq, Repr

/-- The exception hierarchy of `src/domain/catalog/exceptions.py`:
`InventoryError` is the base class, the other three are its subclasses; each
carries its message (`str(e)`). -/
inductive InventoryErr where
  | inventoryError : String → InventoryErr
  | catalogNotFoundError : String → InventoryErr
  | catalogLoadError : String → InventoryErr
  | invalidSearchParametersError : String → InventoryErr
deriving DecidableEq, Repr

/-- `str(e)`: the message carried by an inventory exception. -/
def InventoryErr.message : InventoryErr → String
  | .inventoryError m => m
  | .catalogNotFoundError m => m
  | .catalogLoadError m => m
  | .invalidSearchParametersError m => m

/-- Whether an error is (exactly) the `InvalidSearchParametersError` subclass. -/
def InventoryErr.isInvalidSearchParameters : InventoryErr → Bool
  | .invalidSearchParametersError _ => true
  | _ => false

/-- Validated `VehicleSearchParams` (`src/domain/catalog/models.py`):
make/model are stored stripped. -/
structure VehicleSearchParams where
  make : Option String
  model : Option String
  year : Option Int
  km : Option Int
  price : Option Int
deriving DecidableEq, Repr

/-- `VehicleSearchParams.make_normalized`: `self.make.lower() if self.make
else None`. -/
def VehicleSearchParams.make_normalized (p : VehicleSearchParams) : Option String :=
  match p.make with
  | none => none
  | some m => if m == "" then none else some (pyLower m)

/-- `VehicleSearchParams.model_normalized`. -/
def VehicleSearchParams.model_normalized (p : VehicleSearchParams) : Option String :=
  match p.model with
  | none => none
  | some m => if m == "" then none else some (pyLower m)

/-- Pydantic validation of `VehicleSearchParams`: strips make/model and
rejects them when empty after stripping; `year` must lie in
`[1900, currentYear]`; `km` and `price` must be non-negative.  A failure
becomes `InvalidSearchParametersError` (raised by `search_vehicles`). -/
def validateSearchParams (currentYear : Int) (make model : Option String)
    (year km price : Option Int) : Except InventoryErr VehicleSearchParams :=
  let makeT := make.map pyStrip
  let modelT := model.map pyStrip
  if makeT == some "" then
    .error (.invalidSearchParametersError "make: No puede estar vacío")
  else if modelT == some "" then
    .error (.invalidSearchParametersError "model: No puede estar vacío")
  else if (match year with | some y => decide (y < 1900) | none => false) then
    .error (.invalidSearchParametersError "year: Input should be greater than or equal to 1900")
  else if (match year with | some y => decide (currentYear < y) | none => false) then
    .error (.invalidSearchParametersError "year: No puede ser mayor al año actual")
  else if (match km with | some k => decide (k < 0) | none => false) then
    .error (.invalidSearchParametersError "km: Input should be greater than or equal to 0")
  else if (match price with | some pr => decide (pr < 0) | none => false) then
    .error (.invalidSearchParametersError "price: Input should be greater than or equal to 0")
  else
    .ok { make := makeT, model := modelT, year := year, km := km, price := price }

/-! ### Catalog engine (`src/tools/catalog/inventory.py`)

Every function takes the cached catalog (`_load_catalog_data()`) as an
explicit argument, and `search_vehicles` additionally takes the current year
(`datetime.now().year` inside the pydantic validator). -/

/-- Conversion of a catalog row to the outward `VehicleSearchResult`
(make/model title-cased), as done in `search_vehicles` and
`get_vehicle_details`. -/
def toVehicleSearchResult (v : VehicleRow) : VehicleSearchResult :=
  { stock_id := v.stock_id
    make := pyTitle v.make
    model := pyTitle v.model
    year := v.year
    km := v.km
    price := v.price
    version := v.version
    bluetooth := v.bluetooth
    car_play := v.car_play }

/-- `get_available_makes()`: sorted distinct title-cased makes. -/
def get_available_makes (catalog : List VehicleRow) : List String :=
  sortStrings ((catalog.map (fun v => pyTitle v.make)).dedup)

/-- `get_available_models(make=None)`: sorted distinct title-cased models,
optionally restricted to one (truthy) make. -/
def get_available_models (catalog : List VehicleRow) (make : Option String) : List String :=
  if optStrTruthy make then
    let mn := pyLower (pyStrip (make.getD ""))
    sortStrings (((catalog.filter (fun v => v.make == mn)).map (fun v => pyTitle v.model)).dedup)
  else
    sortStrings ((catalog.map (fun v => pyTitle v.model)).dedup)

/-- `get_makes_for_model(model)`: sorted distinct title-cased makes of the
rows whose model equals the normalized input; `[]` for a falsy model. -/
def get_makes_for_model (catalog : List VehicleRow) (model : String) : List String :=
  if model == "" then []
  else
    let mn := pyLower (pyStrip model)
    sortStrings (((catalog.filter (fun v => v.model == mn)).map (fun v => pyTitle v.make)).dedup)

/-- The filter chain of `search_vehicles` (the four `continue` tests):
a vehicle is kept when no present criterion rejects it. -/
def keepVehicle (p : VehicleSearchParams) (v : VehicleRow) : Bool :=
  !(optStrTruthy p.make_normalized && !(v.make == p.make_normalized.getD "")) &&
  !(optStrTruthy p.model_normalized && !(v.model == p.model_normalized.getD "")) &&
  !(p.year.isSome && !(v.year == p.year.getD 0)) &&
  !(p.km.isSome && decide (p.km.getD 0 < v.km)) &&
  !(p.price.isSome && decide (p.price.getD 0 < v.price))

/-- `search_vehicles(make, model, year, km, price)`: validates the criteria,
filters the catalog in load order, converts matches to results and returns
them with `total_count = len(results)`. -/
def search_vehicles (catalog : List VehicleRow) (currentYear : Int)
    (make model : Option String) (year km price : Option Int) :
    Except InventoryErr SearchResults :=
  match validateSearchParams currentYear make model year km price with
  | .error e => .error e
  | .ok params =>
    let results := (catalog.filter (keepVehicle params)).map toVehicleSearchResult
    .ok { results := results, total_count := results.length }

/-- The `stock_id: int | str` argument of `get_vehicle_details`. -/
inductive StockIdInput where
  | ofInt : Int → StockIdInput
  | ofStr : String → StockIdInput
deriving DecidableEq, Repr

/-- Python `int(stock_id)`: an `int` converts to itself, a `str` is parsed. -/
def pyIntOfInput : StockIdInput → Option Int
  | .ofInt n => some n
  | .ofStr s => pyParseInt s

/-- `f"{stock_id}"` for the error message of `get_vehicle_details`. -/
def StockIdInput.display : StockIdInput → String
  | .ofInt n => toString n
  | .ofStr s => s

/-- The message of the parse-failure branch of `get_vehicle_details`. -/
def invalidStockIdMsg (stock_id : StockIdInput) : String :=
  "stock_id inválido: '" ++ stock_id.display ++ "'. Debe ser un número entero."

/-- The message of the not-found branch of `get_vehicle_details`. -/
def vehicleNotFoundMsg (n : Int) : String :=
  "No se encontró el vehículo con stock_id " ++ toString n

/-- `get_vehicle_details(stock_id)`: converts the id to an integer (raising
the base `InventoryError` on failure), scans the catalog for the first row
with that stock id (raising the base `InventoryError` when absent) and
returns the converted row. -/
def get_vehicle_details (catalog : List VehicleRow) (stock_id : StockIdInput) :
    Except InventoryErr VehicleSearchResult :=
  match pyIntOfInput stock_id with
  | none => .error (.inventoryError (invalidStockIdMsg stock_id))
  | some n =>
    match catalog.find? (fun v => v.stock_id == n) with
    | none => .error (.inventoryError (vehicleNotFoundMsg n))
    | some v => .ok (toVehicleSearchResult v)

/-! ### Fuzzy matching (`difflib.get_close_matches` as called by
`_suggest_matches`: `isjunk=None`, `autojunk=True`, `n=3`, `cutoff=0.8`)

With `isjunk=None` the junk set `bjunk` is empty, so the junk-extension
loops of `find_longest_match` never fire and the non-junk extension loops
are unconditional; `autojunk` only removes "popular" characters (count
exceeding `len(b) // 100 + 1` when `len(b) >= 200`) from the position index
`b2j`.  Ratios `2*M/T` are compared to the cutoff and to each other exactly
as rationals; for the short strings involved this coincides with the
float comparison performed by `difflib` (see the design comments). -/

/-- Characters removed from `b2j` by autojunk. -/
def popularChars (b : List Char) : List Char :=
  if 200 ≤ b.length then
    b.dedup.filter (fun c => b.length / 100 + 1 < b.count c)
  else []

/-- `b2j[c]`: ascending positions of `c` in `b`, empty for popular chars. -/
def positionsIn (pop : List Char) (b : List Char) (c : Char) : List Nat :=
  if pop.contains c then []
  else (List.range b.length).filter (fun j => b.getD j ' ' == c)

/-- `j2len.get(k, 0)` on the association list representing `j2len`. -/
def lookupD (m : List (Nat × Nat)) (k : Nat) : Nat :=
  match m.find? (fun p => p.1 == k) with
  | some p => p.2
  | none => 0

/-- Leftward extension loop of `find_longest_match` (empty junk set):
how far the block can be extended over equal characters below
`(besti, bestj)` while staying at or above `(alo, blo)`.  The first `Nat`
argument is `besti` and recursion is structural on it. -/
def extLeftAmt (a b : List Char) (alo blo : Nat) : Nat → Nat → Nat
  | 0, _ => 0
  | bi + 1, bj =>
    if alo < bi + 1 && blo < bj && (a.getD bi ' ' == b.getD (bj - 1) ' ') then
      extLeftAmt a b alo blo bi (bj - 1) + 1
    else 0

/-- Rightward extension loop of `find_longest_match` (empty junk set),
fuel-recursive: the fuel starts at `ahi`, an upper bound on the number of
steps since each step requires `i < ahi`. -/
def extRightAmt (a b : List Char) (ahi bhi : Nat) : Nat → Nat → Nat → Nat
  | 0, _, _ => 0
  | fuel + 1, i, j =>
    if i < ahi && j < bhi && (a.getD i ' ' == b.getD j ' ') then
      extRightAmt a b ahi bhi fuel (i + 1) (j + 1) + 1
    else 0

/-- The dynamic-programming pass of `SequenceMatcher.find_longest_match`
restricted to `a[alo:ahi]` and `b[blo:bhi]`, followed by the two non-junk
extension loops (the junk loops are vacuous here, see above).  Returns
`(besti, bestj, bestsize)`. -/
def find_longest_match (pop : List Char) (a b : List Char)
    (alo ahi blo bhi : Nat) : Nat × Nat × Nat :=
  let step : (List (Nat × Nat) × (Nat × Nat × Nat)) → Nat →
      (List (Nat × Nat) × (Nat × Nat × Nat)) := fun acc i =>
    let j2len := acc.1
    let js := (positionsIn pop b (a.getD i ' ')).filter (fun j => blo ≤ j && j < bhi)
    js.foldl (fun acc2 j =>
      let k := (if j == 0 then 0 else lookupD j2len (j - 1)) + 1
      let best := acc2.2
      let best2 := if best.2.2 < k then (i + 1 - k, j + 1 - k, k) else best
      ((j, k) :: acc2.1, best2)) ([], acc.2)
  let dp := (List.range' alo (ahi - alo)).foldl step ([], (alo, blo, 0))
  let bi := dp.2.1
  let bj := dp.2.2.1
  let bk := dp.2.2.2
  let d := extLeftAmt a b alo blo bi bj
  let bi := bi - d
  let bj := bj - d
  let bk := bk + d
  let e := extRightAmt a b ahi bhi ahi (bi + bk) (bj + bk)
  (bi, bj, bk + e)

/-- Total size `M` of the matching blocks of `SequenceMatcher
.get_matching_blocks` (only the total enters `ratio()`): recursively split
around the longest match.  Fuel-recursive; the initial fuel
`a.length + b.length + 1` dominates the recursion depth because every
split strictly shrinks the interval pair. -/
def matchTotal (pop : List Char) (a b : List Char) : Nat → Nat → Nat → Nat → Nat → Nat
  | 0, _, _, _, _ => 0
  | fuel + 1, alo, ahi, blo, bhi =>
    let m := find_longest_match pop a b alo ahi blo bhi
    let i := m.1
    let j := m.2.1
    let k := m.2.2
    if k == 0 then 0
    else
      matchTotal pop a b fuel alo i blo j + k +
      matchTotal pop a b fuel (i + k) ahi (j + k) bhi

/-- `(M, T)` for `SequenceMatcher(None, x, word).ratio() = 2*M/T`
(`a = x` is the candidate, `b = word` is the queried value). -/
def ratioMT (word candidate : String) : Nat × Nat :=
  let a := candidate.toList
  let b := word.toList
  let pop := popularChars b
  (matchTotal pop a b (a.length + b.length + 1) 0 a.length 0 b.length,
   a.length + b.length)

/-- `ratio() >= cutoff` for `cutoff = 0.8` (with `ratio() = 1.0` when both
strings are empty), compared exactly: `2*M/T ≥ 8/10`. -/
def cutoffPass (M T : Nat) : Bool :=
  if T == 0 then true else decide (8 * T ≤ 20 * M)

/-- The ratio as an exact fraction, with the `T = 0 → 1.0` convention. -/
def ratioNumDen (M T : Nat) : Nat × Nat :=
  if T == 0 then (1, 1) else (2 * M, T)

/-- Descending comparison of the `(ratio, candidate)` tuples ordered by
`heapq.nlargest` (ratio first, then Python string order). -/
def scoreGE (p q : (Nat × Nat) × String) : Bool :=
  if p.1.1 * q.1.2 == q.1.1 * p.1.2 then !(charListLt p.2.data q.2.data)
  else decide (q.1.1 * p.1.2 < p.1.1 * q.1.2)

/-- `difflib.get_close_matches(word, possibilities, n, cutoff=0.8)`:
candidates whose ratio reaches the cutoff, the `n` largest by
`(ratio, candidate)`, in descending order. -/
def get_close_matches (word : String) (possibilities : List String) (n : Nat) :
    List String :=
  let scored := possibilities.filterMap (fun x =>
    let mt := ratioMT word x
    if cutoffPass mt.1 mt.2 then some (ratioNumDen mt.1 mt.2, x) else none)
  ((sortBy scoreGE scored).take n).map (fun p => p.2)

/-! ### Core models (`src/core/models.py`) -/

/-- `MessageRole`. -/
inductive MessageRole where
  | USER
  | ASSISTANT
  | SYSTEM
deriving DecidableEq, Repr

/-- `Message`: role, content and creation instant. -/
structure Message where
  role : MessageRole
  content : String
  timestamp : Int
deriving DecidableEq, Repr

/-- `SelectedVehicle`: the lightweight projection kept in the context. -/
structure SelectedVehicle where
  stock_id : Int
  make : String
  model : String
  year : Int
  price : Int
  km : Int
deriving DecidableEq, Repr

/-- `ConversationContext`. -/
structure ConversationContext where
  session_id : String
  messages : List Message := []
  selected_vehicle : Option SelectedVehicle := none
  last_search_results : List SelectedVehicle := []
  last_action : Option String := none
  created_at : Int := 0
  updated_at : Int := 0
deriving DecidableEq, Repr

/-- `ConversationContext.MAX_MESSAGES`. -/
def MAX_MESSAGES : Nat := 20

/-- `ConversationContext.add_message(role, content)` at instant `now`:
appends the message and, when the list then exceeds `MAX_MESSAGES`, keeps
the slice `messages[-MAX_MESSAGES:]`; refreshes `updated_at`. -/
def ConversationContext.add_message (ctx : ConversationContext)
    (role : MessageRole) (content : String) (now : Int) : ConversationContext :=
  let msgs := ctx.messages ++ [{ role := role, content := content, timestamp := now }]
  let msgs2 := if MAX_MESSAGES < msgs.length then msgs.drop (msgs.length - MAX_MESSAGES) else msgs
  { ctx with messages := msgs2, updated_at := now }

/-- A sequence of `add_message` calls, in order. -/
def ConversationContext.addMessages (ctx : ConversationContext)
    (items : List (MessageRole × String × Int)) : ConversationContext :=
  items.foldl (fun c it => c.add_message it.1 it.2.1 it.2.2) ctx

/-- `AgentAction`. -/
inductive AgentAction where
  | SEARCH_CARS
  | GET_CAR_DETAILS
  | GET_FINANCING_OPTIONS
  | GET_KAVAK_INFO
  | RESPOND
  | CLARIFY
  | OUT_OF_SCOPE
deriving DecidableEq, Repr

/-- `MissingField`. -/
inductive MissingField where
  | MAKE
  | MODEL
  | YEAR
  | PRICE_MAX
deriving DecidableEq, Repr

/-- `AgentDecision`: the flat decision record; every field except `action`
defaults to `None`. -/
structure AgentDecision where
  action : AgentAction
  make : Option String := none
  model : Option String := none
  year : Option Int := none
  price_max : Option Int := none
  stock_id : Option String := none
  down_payment : Option Int := none
  duration : Option Int := none
  info_query : Option String := none
  message : Option String := none
  missing_information : Option (List MissingField) := none
  reason : Option String := none
deriving DecidableEq, Repr

/-! ### Action results (`src/agent/models.py`) -/

/-- The closed set of `ActionResult` variants. -/
inductive ActionResult where
  | searchCarsResult : SearchResults → AgentDecision → ActionResult
  | getCarDetailsResult : VehicleSearchResult → AgentDecision → ActionResult
  | financingOptionsResult : Int → AgentDecision → ActionResult
  | kavakInfoResult : String → String → AgentDecision → ActionResult
  | responseResult : String → AgentDecision → ActionResult
  | clarifyResult : String → List MissingField → AgentDecision → ActionResult
  | outOfScopeResult : String → Option String → AgentDecision → ActionResult
  | errorResult : String → AgentDecision → ActionResult
deriving DecidableEq, Repr

/-- `UserReply`. -/
structure UserReply where
  message : String
  vehicles : List VehicleSearchResult := []
  success : Bool := true
deriving DecidableEq, Repr

/-! ### Search handler (`src/agent/handlers/catalog.py`) -/

/-- `_suggest_matches(value, options)`: empty for a falsy value; otherwise
maps options by their lowercase form (later duplicates overwrite the stored
original, Python-dict style), fuzzy-matches the stripped lowercased value
against the lowercase keys (`n=3`, `cutoff=0.8`) and maps the matches back
to the stored originals. -/
def _suggest_matches (value : String) (options : List String) : List String :=
  if value == "" then []
  else
    let options_map := options.foldl (fun m opt =>
      let key := pyLower opt
      if (m.find? (fun p => p.1 == key)).isSome then
        m.map (fun p => if p.1 == key then (key, opt) else p)
      else m ++ [(key, opt)]) []
    let found := get_close_matches (pyLower (pyStrip value)) (options_map.map (fun p => p.1)) 3
    found.map (fun k => ((options_map.find? (fun p => p.1 == k)).map (fun p => p.2)).getD "")

/-- The ambiguity clarification message of `handle_search_cars`. -/
def ambiguousModelMsg (model : String) (makes : List String) : String :=
  "Encontré el modelo " ++ model ++ " en varias marcas: " ++
  String.intercalate ", " makes ++ ". ¿Cuál prefieres?"

/-- The make argument given to `get_available_models` in the zero-result
branch: the decision's make when it is truthy and (lowercased) among the
lowercased available makes, else `None`. -/
def modelsFilterArg (catalog : List VehicleRow) (decision : AgentDecision) :
    Option String :=
  match decision.make with
  | some mk =>
    if !(mk == "") && ((get_available_makes catalog).map pyLower).contains (pyLower mk)
    then some mk else none
  | none => none

/-- The make suggestions computed in the zero-result branch. -/
def handlerMakeSuggestions (catalog : List VehicleRow) (decision : AgentDecision) :
    List String :=
  if optStrTruthy decision.make then
    _suggest_matches (decision.make.getD "") (get_available_makes catalog)
  else []

/-- The model suggestions computed in the zero-result branch. -/
def handlerModelSuggestions (catalog : List VehicleRow) (decision : AgentDecision) :
    List String :=
  if optStrTruthy decision.model then
    _suggest_matches (decision.model.getD "")
      (get_available_models catalog (modelsFilterArg catalog decision))
  else []

/-- The "did you mean" fragments built from the first suggestion of each kind. -/
def suggestionParts (catalog : List VehicleRow) (decision : AgentDecision) :
    List String :=
  (match handlerMakeSuggestions catalog decision with
   | s :: _ => ["marca '" ++ s ++ "'"]
   | [] => []) ++
  (match handlerModelSuggestions catalog decision with
   | s :: _ => ["modelo '" ++ s ++ "'"]
   | [] => [])

/-- The zero-result clarification message of `handle_search_cars`. -/
def noMatchSuggestMsg (parts : List String) : String :=
  "No encontré coincidencias exactas. ¿Te referías a " ++
  String.intercalate ", " parts ++ "?"

/-- The body of `handle_search_cars` after the ambiguous-model guard: run the
search (note: `km` is not forwarded; `price` receives `decision.price_max`),
turn an `InventoryError` into an `ErrorResult`, and on a zero-count result
with make/model criteria try fuzzy suggestions, converting to a
`ClarifyResult` with empty missing fields when any suggestion exists. -/
def handle_search_cars_go (catalog : List VehicleRow) (currentYear : Int)
    (decision : AgentDecision) : ActionResult :=
  match search_vehicles catalog currentYear decision.make decision.model
      decision.year none decision.price_max with
  | .error e => .errorResult e.message decision
  | .ok results =>
    if results.total_count == 0 &&
        (optStrTruthy decision.make || optStrTruthy decision.model) then
      match suggestionParts catalog decision with
      | [] => .searchCarsResult results decision
      | parts => .clarifyResult (noMatchSuggestMsg parts) [] decision
    else .searchCarsResult results decision

/-- `handle_search_cars(decision)`: when a truthy model comes without a
truthy make and that model maps to more than one make, short-circuit to a
clarification asking for the make; otherwise run the search body. -/
def handle_search_cars (catalog : List VehicleRow) (currentYear : Int)
    (decision : AgentDecision) : ActionResult :=
  if optStrTruthy decision.model && !(optStrTruthy decision.make) then
    let makes_for_model := get_makes_for_model catalog (decision.model.getD "")
    if 1 < makes_for_model.length then
      .clarifyResult (ambiguousModelMsg (decision.model.getD "") makes_for_model)
        [MissingField.MAKE] decision
    else handle_search_cars_go catalog currentYear decision
  else handle_search_cars_go catalog currentYear decision

/-! ### Presenter (`src/agent/presenter.py`) -/

/-- `_DEFAULT_ERROR_MESSAGE`. -/
def _DEFAULT_ERROR_MESSAGE : String :=
  "Lo siento, ocurrió un problema al procesar tu solicitud. Por favor, intenta de nuevo."

/-- Digit grouping in threes for `f"{price:,.0f}"` (the modelled prices are
integers, so rounding is exact): `chunk3` works on the reversed digit list. -/
def chunk3 : List Char → List Char
  | a :: b :: c :: d :: rest => a :: b :: c :: ',' :: chunk3 (d :: rest)
  | l => l

/-- `f"{n:,}"` for a natural number. -/
def commaNat (n : Nat) : String := String.mk (chunk3 (toString n).toList.reverse).reverse

/-- `f"{n:,.0f}"` for an integer-valued price. -/
def commaInt : Int → String
  | .ofNat n => commaNat n
  | .negSucc m => "-" ++ commaNat (m + 1)

/-- `_render_search_cars`. -/
def _render_search_cars (results : SearchResults) (decision : AgentDecision) :
    UserReply :=
  let count := results.total_count
  if count == 0 then
    let parts :=
      (if optStrTruthy decision.make then [decision.make.getD ""] else []) ++
      (if optStrTruthy decision.model then [decision.model.getD ""] else [])
    let criteria_text := String.intercalate " " parts
    let msg :=
      if !(criteria_text == "") then
        "No encontré " ++ criteria_text ++
        " con esos criterios. ¿Te gustaría buscar algo diferente?"
      else
        "No encontré vehículos con esos criterios. ¿Te gustaría buscar algo diferente?"
    { message := msg, vehicles := results.results, success := true }
  else if count == 1 then
    { message := "¡Encontré 1 vehículo que coincide con tu búsqueda!"
      vehicles := results.results, success := true }
  else
    { message := "¡Encontré " ++ toString count ++
        " vehículos que coinciden con tu búsqueda!"
      vehicles := results.results, success := true }

/-- `render_reply(result)`: the presentation layer.  The error variant logs
the real error for diagnostics and returns the one fixed generic apology
with `success=False`; the internal error text does not reach the reply. -/
def render_reply : ActionResult → UserReply
  | .searchCarsResult results decision => _render_search_cars results decision
  | .getCarDetailsResult car _ =>
    { message := "Detalles del vehículo " ++ toString car.stock_id ++ ": " ++
        car.make ++ " " ++ car.model ++ " " ++ toString car.year
      vehicles := [], success := true }
  | .financingOptionsResult price _ =>
    { message := "Opciones de financiamiento para vehículo con precio $" ++
        commaInt price ++ " MXN"
      vehicles := [], success := true }
  | .kavakInfoResult _ query _ =>
    { message := "Información sobre Kavak: " ++ query, vehicles := [], success := true }
  | .responseResult msg _ => { message := msg, vehicles := [], success := true }
  | .clarifyResult msg _ _ => { message := msg, vehicles := [], success := true }
  | .outOfScopeResult msg _ _ => { message := msg, vehicles := [], success := true }
  | .errorResult _ _ =>
    { message := _DEFAULT_ERROR_MESSAGE, vehicles := [], success := false }

/-! ### Clarification guard (`src/services/message_processor.py`) -/

/-- The closed list of anaphoric reference phrases tested (as substrings)
against the lowercased user text. -/
def referencePhrases : List String :=
  ["mas barato", "más barato", "el primero", "la primera", "el rojo",
   "la roja", "ese", "ese auto", "ese coche", "me interesa el", "me interesa la"]

/-- `any(phrase in text for phrase in ...)` over the lowercased text. -/
def needs_reference (text : String) : Bool :=
  referencePhrases.any (fun p => strContainsSub text p)

/-- `has_context`: the context has prior search results or a selected vehicle. -/
def hasGuardContext (ctx : ConversationContext) : Bool :=
  !ctx.last_search_results.isEmpty || ctx.selected_vehicle.isSome

/-- The override produced by guard rule 1 (financing with empty context). -/
def clarifyFinancingEmpty : AgentDecision :=
  { action := .CLARIFY
    message := some "¿Qué vehículo te interesa financiar? Puedes decirme la marca y el modelo."
    missing_information := some [] }

/-- The override produced by guard rule 2 (financing with results, none selected). -/
def clarifyFinancingWhich : AgentDecision :=
  { action := .CLARIFY
    message := some "¿Cuál de los vehículos encontrados quieres financiar? Indícame el número en la lista o dime marca y modelo."
    missing_information := some [] }

/-- The override produced by guard rule 3 (dangling reference, empty context). -/
def clarifyReference : AgentDecision :=
  { action := .CLARIFY
    message := some "¿Te refieres a algún vehículo de una búsqueda previa? Si no, dime qué marca, modelo o presupuesto tienes en mente."
    missing_information := some [MissingField.MAKE, MissingField.MODEL] }

/-- `MessageProcessorService._apply_clarify_guards(user_text, decision, ctx)`:
rules evaluated in order, first match wins, otherwise the decision passes
through unchanged. -/
def _apply_clarify_guards (user_text : String) (decision : AgentDecision)
    (ctx : ConversationContext) : AgentDecision :=
  let text := pyLower user_text
  let has_context := hasGuardContext ctx
  if decision.action == .GET_FINANCING_OPTIONS && !(optStrTruthy decision.stock_id)
      && !has_context then
    clarifyFinancingEmpty
  else if decision.action == .GET_FINANCING_OPTIONS && !(optStrTruthy decision.stock_id)
      && !ctx.last_search_results.isEmpty && !ctx.selected_vehicle.isSome then
    clarifyFinancingWhich
  else if needs_reference text && !has_context then
    clarifyReference
  else decision

/-! ### Session store (`src/adapters/storage/local_adapter.py`)

The store dict is modelled as a map `String → Option ConversationContext`;
each operation takes the store (and, where the source consults
`datetime.now()`, the current instant `now` and the TTL) and returns its
result together with the successor store. -/

/-- The in-memory session map. -/
def Store : Type := String → Option ConversationContext

/-- The empty store. -/
def Store.empty : Store := fun _ => none

/-- Removal of one key. -/
def Store.remove (s : Store) (id : String) : Store :=
  fun k => if k == id then none else s k

/-- `LocalStorageAdapter._is_expired(context)`:
`datetime.now() - context.updated_at > self._ttl`. -/
def LocalStorageAdapter.is_expired (ttl now : Int) (ctx : ConversationContext) : Bool :=
  decide (ttl < now - ctx.updated_at)

/-- `LocalStorageAdapter.get(session_id)`: `None` when absent; when present
but expired, the entry is evicted and `None` is returned; otherwise the
context is returned and the store is unchanged. -/
def LocalStorageAdapter.get (s : Store) (ttl now : Int) (id : String) :
    Option ConversationContext × Store :=
  match s id with
  | none => (none, s)
  | some ctx =>
    if LocalStorageAdapter.is_expired ttl now ctx then (none, s.remove id)
    else (some ctx, s)

/-- `LocalStorageAdapter.exists(session_id)`: defined through `get`, so it
reports liveness (present and unexpired) and shares `get`'s eviction side
effect. -/
def LocalStorageAdapter.existsSession (s : Store) (ttl now : Int) (id : String) :
    Bool × Store :=
  let r := LocalStorageAdapter.get s ttl now id
  (r.1.isSome, r.2)

/-- `LocalStorageAdapter.delete(session_id)`: removes the entry when the key
is present — regardless of expiry — and reports whether it was present. -/
def LocalStorageAdapter.delete (s : Store) (id : String) : Bool × Store :=
  match s id with
  | some _ => (true, s.remove id)
  | none => (false, s)

/-! ### Specification-side definitions and concrete data -/

/-- Claim-side search predicate, following the specification's words:
criteria apply conjunctively — make/model by exact case-insensitive match of
the vehicle field against the normalized (trimmed, lowercased) criterion,
year by exact match, odometer and price by less-or-equal to the ceiling. -/
def matchesCriteria (make model : Option String) (year km price : Option Int)
    (v : VehicleRow) : Bool :=
  (match make with | some m => pyLower v.make == pyLower (pyStrip m) | none => true) &&
  (match model with | some m => pyLower v.model == pyLower (pyStrip m) | none => true) &&
  (match year with | some y => v.year == y | none => true) &&
  (match km with | some k => decide (v.km ≤ k) | none => true) &&
  (match price with | some pr => decide (v.price ≤ pr) | none => true)

/-- The last `n` elements of a list (`xs[-n:]`). -/
def lastN (n : Nat) (xs : List α) : List α := xs.drop (xs.length - n)

/-- Turn an `(role, content, instant)` triple into a `Message`. -/
def mkMessage (it : MessageRole × String × Int) : Message :=
  { role := it.1, content := it.2.1, timestamp := it.2.2 }

/-- First demo catalog row. -/
def demoRow1 : VehicleRow :=
  { stock_id := 1001, make := "toyota", model := "corolla", year := 2020,
    km := 50000, price := 300000, version := "LE", bluetooth := true, car_play := false }

/-- Second demo catalog row. -/
def demoRow2 : VehicleRow :=
  { stock_id := 1002, make := "honda", model := "civic", year := 2019,
    km := 60000, price := 280000, version := "EX", bluetooth := true, car_play := true }

/-- Third demo catalog row. -/
def demoRow3 : VehicleRow :=
  { stock_id := 1003, make := "geely", model := "corolla", year := 2021,
    km := 30000, price := 250000, version := "GL", bluetooth := false, car_play := false }

/-- A small loaded catalog used to instantiate the theorems (rows carry
make/model stripped and lowercased, as the loader stores them; the model
`corolla` appears under two distinct makes, and stock ids are unique). -/
def demoCatalog : List VehicleRow := [demoRow1, demoRow2, demoRow3]

/-- Twenty-one message-append requests. -/
def demo21 : List (MessageRole × String × Int) :=
  (List.range 21).map (fun i => (MessageRole.USER, "hola", (i : Int)))

/-- A context with no selection and no prior results. -/
def emptyCtx : ConversationContext := { session_id := "s1" }

/-- A financing decision carrying no stock id. -/
def finDecisionNoStock : AgentDecision := { action := .GET_FINANCING_OPTIONS }

/-- A financing decision carrying a stock id. -/
def finDecisionWithStock : AgentDecision :=
  { action := .GET_FINANCING_OPTIONS, stock_id := some "1001" }

/-- A search decision with a misspelled make and no other criteria. -/
def typoMakeDecision : AgentDecision := { action := .SEARCH_CARS, make := some "Toyot" }

/-- A search decision giving only a model that exists under two makes. -/
def modelOnlyDecision : AgentDecision := { action := .SEARCH_CARS, model := some "Corolla" }

/-- A stored context whose `updated_at` lies at instant 0. -/
def demoCtxStale : ConversationContext := { session_id := "u1", updated_at := 0 }

/-- A store holding exactly the stale context under key `"u1"`. -/
def demoStore : Store := fun k => if k == "u1" then some demoCtxStale else none

deriving instance DecidableEq for Except

/-! ### Theorems -/

/-- C2: for a stored context whose `updated_at` is more than `ttl` in the
past, `get` returns `None` and evicts the entry, so any subsequent `exists`
for that id is `False`; `get` also returns `None` for an absent id. -/
theorem get_expired_returns_none_and_evicts (s : Store) (ttl now : Int)
    (id : String) (ctx : ConversationContext)
    (hstore : s id = some ctx) (hexp : ttl < now - ctx.updated_at) :
    (LocalStorageAdapter.get s ttl now id).1 = none ∧
    ((LocalStorageAdapter.get s ttl now id).2 id = none) ∧
    (∀ ttl2 now2 : Int,
      (LocalStorageAdapter.existsSession (LocalStorageAdapter.get s ttl now id).2
        ttl2 now2 id).1 = false) ∧
    (∀ id2, s id2 = none → (LocalStorageAdapter.get s ttl now id2).1 = none) := by
  have hexpb : LocalStorageAdapter.is_expired ttl now ctx = true := by
    simp [LocalStorageAdapter.is_expired, hexp]
  refine ⟨?_, ?_, ?_, ?_⟩
  · simp [LocalStorageAdapter.get, hstore, hexpb]
  · simp [LocalStorageAdapter.get, hstore, hexpb, Store.remove]
  · intro ttl2 now2
    simp [LocalStorageAdapter.existsSession, LocalStorageAdapter.get, hstore, hexpb,
      Store.remove]
  · intro id2 h2
    simp [LocalStorageAdapter.get, h2]

/-- C2 witness: instantiation at a concrete store with a stale entry. -/
theorem get_expired_returns_none_and_evicts_witness :
    (LocalStorageAdapter.get demoStore 10 11 "u1").1 = none ∧
    ((LocalStorageAdapter.get demoStore 10 11 "u1").2 "u1" = none) ∧
    (LocalStorageAdapter.existsSession (LocalStorageAdapter.get demoStore 10 11 "u1").2
      10 12 "u1").1 = false ∧
    (LocalStorageAdapter.get demoStore 10 11 "zz").1 = none :=
  ⟨(get_expired_returns_none_and_evicts demoStore 10 11 "u1" demoCtxStale
      (by decide) (by decide)).1,
   (get_expired_returns_none_and_evicts demoStore 10 11 "u1" demoCtxStale
      (by decide) (by decide)).2.1,
   (get_expired_returns_none_and_evicts demoStore 10 11 "u1" demoCtxStale
      (by decide) (by decide)).2.2.1 10 12,
   (get_expired_returns_none_and_evicts demoStore 10 11 "u1" demoCtxStale
      (by decide) (by decide)).2.2.2 "zz" (by decide)⟩

/-- C10: on a store still holding an expired entry, `exists` answers
`False` while `delete` answers `True`; `delete` reports bare key presence,
never consulting the TTL. -/
theorem delete_ignores_ttl_vs_exists (s : Store) (ttl now : Int)
    (id : String) (ctx : ConversationContext)
    (hstore : s id = some ctx) (hexp : ttl < now - ctx.updated_at) :
    (LocalStorageAdapter.existsSession s ttl now id).1 = false ∧
    (LocalStorageAdapter.delete s id).1 = true ∧
    ((LocalStorageAdapter.delete s id).2 id = none) ∧
    (∀ (s2 : Store) (id2 : String),
      (LocalStorageAdapter.delete s2 id2).1 = (s2 id2).isSome) := by
  have hexpb : LocalStorageAdapter.is_expired ttl now ctx = true := by
    simp [LocalStorageAdapter.is_expired, hexp]
  refine ⟨?_, ?_, ?_, ?_⟩
  · simp [LocalStorageAdapter.existsSession, LocalStorageAdapter.get, hstore, hexpb]
  · simp [LocalStorageAdapter.delete, hstore]
  · simp [LocalStorageAdapter.delete, hstore, Store.remove]
  · intro s2 id2
    cases h : s2 id2 <;> simp [LocalStorageAdapter.delete, h]

/-- C10 witness: instantiation at a concrete store with a stale entry. -/
theorem delete_ignores_ttl_vs_exists_witness :
    (LocalStorageAdapter.existsSession demoStore 10 11 "u1").1 = false ∧
    (LocalStorageAdapter.delete demoStore "u1").1 = true ∧
    ((LocalStorageAdapter.delete demoStore "u1").2 "u1" = none) ∧
    (LocalStorageAdapter.delete demoStore "zz").1 = (demoStore "zz").isSome :=
  ⟨(delete_ignores_ttl_vs_exists demoStore 10 11 "u1" demoCtxStale
      (by decide) (by decide)).1,
   (delete_ignores_ttl_vs_exists demoStore 10 11 "u1" demoCtxStale
      (by decide) (by decide)).2.1,
   (delete_ignores_ttl_vs_exists demoStore 10 11 "u1" demoCtxStale
      (by decide) (by decide)).2.2.1,
   (delete_ignores_ttl_vs_exists demoStore 10 11 "u1" demoCtxStale
      (by decide) (by decide)).2.2.2 demoStore "zz"⟩

/-- C8: the error variant always renders to the one fixed generic apology
with `success = False`, regardless of the internal error text, so two error
results differing only in that text render identically. -/
theorem error_render_generic :
    ∀ (e1 e2 : String) (d1 d2 : AgentDecision),
      render_reply (.errorResult e1 d1) =
        { message := _DEFAULT_ERROR_MESSAGE, vehicles := [], success := false } ∧
      render_reply (.errorResult e1 d1) = render_reply (.errorResult e2 d2) := by
  intro e1 e2 d1 d2
  exact ⟨rfl, rfl⟩

/-- C3 counterexample: a `get_financing_options` decision that carries a
stock id is nevertheless overridden to `clarify` when the user text contains
an anaphoric reference phrase ("ese") and the context is empty, refuting the
claim's "never overridden, for any user text and any context". -/
theorem financing_with_stock_id_overridden_cex :
    finDecisionWithStock.action = AgentAction.GET_FINANCING_OPTIONS ∧
    optStrTruthy finDecisionWithStock.stock_id = true ∧
    (_apply_clarify_guards "ese" finDecisionWithStock emptyCtx).action =
      AgentAction.CLARIFY ∧
    _apply_clarify_guards "ese" finDecisionWithStock emptyCtx ≠
      finDecisionWithStock := by
  decide

/-- C3 amended: a `get_financing_options` decision with no stock id and a
context with neither selection nor prior results is always overridden to the
financing clarification; one that carries a stock id passes through unchanged
unless the (lowercased) user text contains an anaphoric reference phrase
while the context is empty. -/
theorem clarify_guard_financing_rules (user_text : String)
    (decision : AgentDecision) (ctx : ConversationContext) :
    (decision.action = AgentAction.GET_FINANCING_OPTIONS →
      optStrTruthy decision.stock_id = false → hasGuardContext ctx = false →
      _apply_clarify_guards user_text decision ctx = clarifyFinancingEmpty) ∧
    (decision.action = AgentAction.GET_FINANCING_OPTIONS →
      optStrTruthy decision.stock_id = true →
      (needs_reference (pyLower user_text) = false ∨ hasGuardContext ctx = true) →
      _apply_clarify_guards user_text decision ctx = decision) := by
  constructor
  · intro ha hstock hctx
    simp [_apply_clarify_guards, ha, hstock, hctx]
  · intro ha hstock href
    rcases href with h | h
    · simp [_apply_clarify_guards, ha, hstock, h]
    · have h1 : (!ctx.last_search_results.isEmpty || ctx.selected_vehicle.isSome) = true := h
      simp [_apply_clarify_guards, ha, hstock, hasGuardContext, h1]
  
/-- C3 witness: both amended rules at concrete inputs. -/
theorem clarify_guard_financing_rules_witness :
    _apply_clarify_guards "hola" finDecisionNoStock emptyCtx = clarifyFinancingEmpty ∧
    _apply_clarify_guards "hola" finDecisionWithStock emptyCtx = finDecisionWithStock := by
  constructor
  · exact (clarify_guard_financing_rules "hola" finDecisionNoStock emptyCtx).1
      rfl (by decide) (by decide)
  · exact (clarify_guard_financing_rules "hola" finDecisionWithStock emptyCtx).2
      rfl (by decide) (Or.inl (by decide))

/-- C4: a `search_cars` decision giving a (truthy) model, no (truthy) make,
whose model maps to two or more catalog makes always yields the ambiguity
clarification with `make` listed missing — never a vehicle result list. -/
theorem ambiguous_model_always_clarifies (catalog : List VehicleRow)
    (currentYear : Int) (decision : AgentDecision)
    (hmodel : optStrTruthy decision.model = true)
    (hmake : optStrTruthy decision.make = false)
    (hmulti : 1 < (get_makes_for_model catalog (decision.model.getD "")).length) :
    handle_search_cars catalog currentYear decision =
      .clarifyResult
        (ambiguousModelMsg (decision.model.getD "")
          (get_makes_for_model catalog (decision.model.getD "")))
        [MissingField.MAKE] decision ∧
    (∀ (results : SearchResults) (d2 : AgentDecision),
      handle_search_cars catalog currentYear decision ≠
        .searchCarsResult results d2) := by
  have hres : handle_search_cars catalog currentYear decision =
      .clarifyResult
        (ambiguousModelMsg (decision.model.getD "")
          (get_makes_for_model catalog (decision.model.getD "")))
        [MissingField.MAKE] decision := by
    simp [handle_search_cars, hmodel, hmake, hmulti]
  exact ⟨hres, by intro results d2; rw [hres]; intro h; exact ActionResult.noConfusion h⟩

/-- C4 witness: the model `Corolla` exists under two makes of the demo
catalog and the handler clarifies. -/
theorem ambiguous_model_always_clarifies_witness :
    handle_search_cars demoCatalog 2025 modelOnlyDecision =
      .clarifyResult
        (ambiguousModelMsg (modelOnlyDecision.model.getD "")
          (get_makes_for_model demoCatalog (modelOnlyDecision.model.getD "")))
        [MissingField.MAKE] modelOnlyDecision ∧
    handle_search_cars demoCatalog 2025 modelOnlyDecision ≠
      .searchCarsResult { results := [], total_count := 0 } modelOnlyDecision :=
  ⟨(ambiguous_model_always_clarifies demoCatalog 2025 modelOnlyDecision
      (by decide) (by decide) (by decide)).1,
   (ambiguous_model_always_clarifies demoCatalog 2025 modelOnlyDecision
      (by decide) (by decide) (by decide)).2
      { results := [], total_count := 0 } modelOnlyDecision⟩

/-- C6 counterexample: on an unparsable id the lookup fails with the base
`InventoryError`, not with the `InvalidSearchParametersError` subclass the
claim names (no `NotFound` class exists in the code at all). -/
theorem vehicle_lookup_error_class_cex :
    get_vehicle_details demoCatalog (.ofStr "abc") =
      .error (.inventoryError (invalidStockIdMsg (.ofStr "abc"))) ∧
    InventoryErr.isInvalidSearchParameters
      (.inventoryError (invalidStockIdMsg (.ofStr "abc"))) = false := by
  decide

/-- C6 amended: the single-vehicle lookup has exactly two failure modes —
an unparsable id and an absent id — both raised as the base
`InventoryError`, distinguishable only by their message texts, which never
coincide (the spec's `NotFound`/`InvalidSearchParameters` types are not
what the code raises). -/
theorem get_vehicle_details_failure_modes (catalog : List VehicleRow)
    (input : StockIdInput) :
    (pyIntOfInput input = none →
      get_vehicle_details catalog input =
        .error (.inventoryError (invalidStockIdMsg input))) ∧
    (∀ n : Int, pyIntOfInput input = some n →
      catalog.find? (fun v => v.stock_id == n) = none →
      get_vehicle_details catalog input =
        .error (.inventoryError (vehicleNotFoundMsg n))) ∧
    (∀ (n : Int) (v : VehicleRow), pyIntOfInput input = some n →
      catalog.find? (fun v => v.stock_id == n) = some v →
      get_vehicle_details catalog input = .ok (toVehicleSearchResult v)) ∧
    (∀ n : Int, invalidStockIdMsg input ≠ vehicleNotFoundMsg n) := by
  refine ⟨?_, ?_, ?_, ?_⟩
  · intro h
    simp [get_vehicle_details, h]
  · intro n hn hfind
    simp [get_vehicle_details, hn, hfind]
  · intro n v hn hfind
    simp [get_vehicle_details, hn, hfind]
  · intro n heq
    have h1 : (invalidStockIdMsg input).data.headD ' ' = 's' := rfl
    have h2 : (vehicleNotFoundMsg n).data.headD ' ' = 'N' := rfl
    rw [heq] at h1
    rw [h1] at h2
    exact absurd h2 (by decide)

/-- C6 witness: the three branches of the amended lookup contract and
message distinctness, at concrete inputs over the demo catalog. -/
theorem get_vehicle_details_failure_modes_witness :
    get_vehicle_details demoCatalog (.ofStr "abc") =
      .error (.inventoryError (invalidStockIdMsg (.ofStr "abc"))) ∧
    get_vehicle_details demoCatalog (.ofStr "9999") =
      .error (.inventoryError (vehicleNotFoundMsg 9999)) ∧
    get_vehicle_details demoCatalog (.ofInt 1001) =
      .ok (toVehicleSearchResult demoRow1) ∧
    invalidStockIdMsg (.ofStr "abc") ≠ vehicleNotFoundMsg 9999 :=
  ⟨(get_vehicle_details_failure_modes demoCatalog (.ofStr "abc")).1 (by decide),
   (get_vehicle_details_failure_modes demoCatalog (.ofStr "9999")).2.1 9999
     (by decide) (by decide),
   (get_vehicle_details_failure_modes demoCatalog (.ofInt 1001)).2.2.1 1001 demoRow1
     (by decide) (by decide),
   (get_vehicle_details_failure_modes demoCatalog (.ofStr "abc")).2.2.2 9999⟩

/-- Helper: the last `n` of the last `n` of `a`, then `b`, is the last `n`
of `a ++ b` (the sliding-window composition property). -/
theorem lastN_lastN_append (n : Nat) (a b : List α) :
    lastN n (lastN n a ++ b) = lastN n (a ++ b) := by
  unfold lastN
  by_cases h : a.length ≤ n
  · have h0 : a.length - n = 0 := Nat.sub_eq_zero_of_le h
    rw [h0, List.drop_zero]
  · rw [List.drop_append_eq_append_drop, List.drop_append_eq_append_drop,
        List.drop_drop]
    simp only [List.length_append, List.length_drop]
    congr 1
    · congr 1
      omega
    · congr 1
      omega

/-- Helper: the conditional truncation of `add_message` equals `lastN`. -/
theorem trunc_eq_lastN (n : Nat) (xs : List α) :
    (if n < xs.length then xs.drop (xs.length - n) else xs) = lastN n xs := by
  unfold lastN
  by_cases h : n < xs.length
  · rw [if_pos h]
  · rw [if_neg h]
    have h0 : xs.length - n = 0 := by omega
    rw [h0, List.drop_zero]

/-- Helper: one `add_message` keeps exactly the last `MAX_MESSAGES` of the
extended history. -/
theorem add_message_messages (ctx : ConversationContext) (role : MessageRole)
    (content : String) (now : Int) :
    (ctx.add_message role content now).messages =
      lastN MAX_MESSAGES
        (ctx.messages ++ [{ role := role, content := content, timestamp := now }]) := by
  unfold ConversationContext.add_message
  exact trunc_eq_lastN MAX_MESSAGES _

/-- Helper: a fold of `add_message` calls keeps exactly the last
`MAX_MESSAGES` of the full extended history. -/
theorem addMessages_messages (items : List (MessageRole × String × Int)) :
    ∀ ctx : ConversationContext, ctx.messages.length ≤ MAX_MESSAGES →
    (ctx.addMessages items).messages =
      lastN MAX_MESSAGES (ctx.messages ++ items.map mkMessage) := by
  induction items with
  | nil =>
    intro ctx hinit
    unfold ConversationContext.addMessages lastN
    simp only [List.foldl_nil, List.map_nil, List.append_nil]
    have h0 : ctx.messages.length - MAX_MESSAGES = 0 := by omega
    rw [h0, List.drop_zero]
  | cons it rest ih =>
    intro ctx hinit
    have hstep : ConversationContext.addMessages ctx (it :: rest) =
        ConversationContext.addMessages (ctx.add_message it.1 it.2.1 it.2.2) rest := by
      unfold ConversationContext.addMessages
      rw [List.foldl_cons]
    rw [hstep]
    have hmsgs := add_message_messages ctx it.1 it.2.1 it.2.2
    have hlen : (ctx.add_message it.1 it.2.1 it.2.2).messages.length ≤ MAX_MESSAGES := by
      rw [hmsgs]
      unfold lastN
      rw [List.length_drop]
      omega
    rw [ih _ hlen, hmsgs, lastN_lastN_append]
    rw [List.append_assoc]
    rfl

/-- C7: starting from a context within the bound, any sequence of message
appends keeps exactly the most recent `MAX_MESSAGES` (= 20) of the full
history, in order; the stored list never exceeds 20 at any intermediate
point, and 21 appends to a fresh context leave exactly 20 messages. -/
theorem message_window_bound (ctx : ConversationContext)
    (items : List (MessageRole × String × Int))
    (hinit : ctx.messages.length ≤ MAX_MESSAGES) :
    (ctx.addMessages items).messages =
      lastN MAX_MESSAGES (ctx.messages ++ items.map mkMessage) ∧
    (∀ pre : List (MessageRole × String × Int),
      (ctx.addMessages pre).messages.length ≤ MAX_MESSAGES) ∧
    (ctx.messages = [] → items.length = 21 →
      (ctx.addMessages items).messages.length = MAX_MESSAGES) := by
  refine ⟨addMessages_messages items ctx hinit, ?_, ?_⟩
  · intro pre
    rw [addMessages_messages pre ctx hinit]
    unfold lastN
    rw [List.length_drop]
    omega
  · intro hempty h21
    rw [addMessages_messages items ctx hinit, hempty]
    unfold lastN
    simp only [List.nil_append, List.length_drop, List.length_map]
    rw [h21]
    rfl

/-- C7 witness: 21 appends to a fresh context leave exactly 20 messages. -/
theorem message_window_bound_witness :
    (emptyCtx.addMessages demo21).messages =
      lastN MAX_MESSAGES (emptyCtx.messages ++ demo21.map mkMessage) ∧
    (emptyCtx.addMessages demo21).messages.length = MAX_MESSAGES :=
  ⟨(message_window_bound emptyCtx demo21 (by decide)).1,
   (message_window_bound emptyCtx demo21 (by decide)).2.2 rfl (by decide)⟩

/-- Helper: lowercasing is empty only on the empty string. -/
theorem pyLower_eq_empty_iff (s : String) : pyLower s = "" ↔ s = "" := by
  cases s with
  | mk d =>
    unfold pyLower
    constructor
    · intro h
      have hd := congrArg String.data h
      simp only [String.data] at hd
      have hdnil : d = [] := List.map_eq_nil_iff.mp hd
      rw [hdnil]
    · intro h
      rw [h]
      rfl

/-- Helper: the source's filter chain agrees pointwise with the
specification's conjunctive criteria on loader-normalized rows. -/
theorem keep_eq_matches (make model : Option String) (year km price : Option Int)
    (hmk : make.map pyStrip ≠ some "") (hmd : model.map pyStrip ≠ some "")
    (v : VehicleRow) (hvm : pyLower v.make = v.make) (hvd : pyLower v.model = v.model) :
    keepVehicle { make := make.map pyStrip, model := model.map pyStrip,
                  year := year, km := km, price := price } v =
      matchesCriteria make model year km price v := by
  unfold keepVehicle matchesCriteria VehicleSearchParams.make_normalized
    VehicleSearchParams.model_normalized optStrTruthy
  rcases make with _ | m <;> rcases model with _ | md
  · cases year <;> cases km <;> cases price <;>
      simp [← decide_not, Int.not_lt]
  · have hne : pyStrip md ≠ "" := fun h => hmd (by simp [h])
    have hf : (pyLower (pyStrip md) == "") = false :=
      beq_eq_false_iff_ne.mpr (fun h => hne ((pyLower_eq_empty_iff _).mp h))
    cases year <;> cases km <;> cases price <;>
      simp [hne, hf, hvd, ← decide_not, Int.not_lt]
  · have hne : pyStrip m ≠ "" := fun h => hmk (by simp [h])
    have hf : (pyLower (pyStrip m) == "") = false :=
      beq_eq_false_iff_ne.mpr (fun h => hne ((pyLower_eq_empty_iff _).mp h))
    cases year <;> cases km <;> cases price <;>
      simp [hne, hf, hvm, ← decide_not, Int.not_lt]
  · have hne : pyStrip m ≠ "" := fun h => hmk (by simp [h])
    have hf : (pyLower (pyStrip m) == "") = false :=
      beq_eq_false_iff_ne.mpr (fun h => hne ((pyLower_eq_empty_iff _).mp h))
    have hne2 : pyStrip md ≠ "" := fun h => hmd (by simp [h])
    have hf2 : (pyLower (pyStrip md) == "") = false :=
      beq_eq_false_iff_ne.mpr (fun h => hne2 ((pyLower_eq_empty_iff _).mp h))
    cases year <;> cases km <;> cases price <;>
      simp [hne, hf, hne2, hf2, hvm, hvd, ← decide_not, Int.not_lt]

/-- Helper: inversion of a successful parameter validation. -/
theorem validate_ok_inv (cy : Int) (make model : Option String)
    (year km price : Option Int) (p : VehicleSearchParams)
    (h : validateSearchParams cy make model year km price = .ok p) :
    p = { make := make.map pyStrip, model := model.map pyStrip,
          year := year, km := km, price := price } ∧
    make.map pyStrip ≠ some "" ∧ model.map pyStrip ≠ some "" := by
  simp only [validateSearchParams] at h
  split_ifs at h with h1 h2 h3 h4 h5 h6
  exact ⟨(Except.ok.inj h).symm, by simpa using h1, by simpa using h2⟩

/-- C1: for every validated set of criteria, the search returns exactly the
vehicles of the loaded (normalized) dataset satisfying all present criteria
conjunctively — make/model case-insensitively, year exactly, odometer and
price by less-or-equal — in dataset load order, with `total_count` equal to
the length of the returned list; an empty match set is an ordinary `ok`
result. -/
theorem search_vehicles_filters_conjunctively (catalog : List VehicleRow) (cy : Int)
    (make model : Option String) (year km price : Option Int) (p : VehicleSearchParams)
    (hnorm : ∀ v ∈ catalog, pyLower v.make = v.make ∧ pyLower v.model = v.model)
    (hval : validateSearchParams cy make model year km price = .ok p) :
    search_vehicles catalog cy make model year km price =
      .ok { results := (catalog.filter
              (matchesCriteria make model year km price)).map toVehicleSearchResult,
            total_count := ((catalog.filter
              (matchesCriteria make model year km price)).map toVehicleSearchResult).length } := by
  obtain ⟨hp, hmk, hmd⟩ := validate_ok_inv cy make model year km price p hval
  have hfil : catalog.filter (keepVehicle p) =
      catalog.filter (matchesCriteria make model year km price) := by
    rw [hp]
    exact List.filter_congr (fun v hv =>
      keep_eq_matches make model year km price hmk hmd v (hnorm v hv).1 (hnorm v hv).2)
  unfold search_vehicles
  rw [hval]
  simp only [hfil]

/-- C1 witness: a make-only search over the demo catalog. -/
theorem search_vehicles_filters_conjunctively_witness :
    search_vehicles demoCatalog 2025 (some "Toyota") none none none none =
      .ok { results := (demoCatalog.filter
              (matchesCriteria (some "Toyota") none none none none)).map toVehicleSearchResult,
            total_count := ((demoCatalog.filter
              (matchesCriteria (some "Toyota") none none none none)).map toVehicleSearchResult).length } :=
  search_vehicles_filters_conjunctively demoCatalog 2025 (some "Toyota") none none none none
    { make := some "Toyota", model := none, year := none, km := none, price := none }
    (by decide) (by decide)

/-- C9: with unique stock identifiers, any vehicle contained in any search
result can be re-fetched through `get_vehicle_details` by its stock id and
the returned record is field-for-field identical. -/
theorem search_details_roundtrip (catalog : List VehicleRow) (cy : Int)
    (make model : Option String) (year km price : Option Int) (r : SearchResults)
    (v : VehicleSearchResult)
    (hnodup : (catalog.map (fun w => w.stock_id)).Nodup)
    (hs : search_vehicles catalog cy make model year km price = .ok r)
    (hv : v ∈ r.results) :
    get_vehicle_details catalog (.ofInt v.stock_id) = .ok v := by
  unfold search_vehicles at hs
  cases hval : validateSearchParams cy make model year km price with
  | error e =>
    rw [hval] at hs
    exact Except.noConfusion hs
  | ok p =>
    rw [hval] at hs
    have hr := Except.ok.inj hs
    rw [← hr] at hv
    obtain ⟨row, hrowmem, htr⟩ := List.mem_map.mp hv
    have hrowcat : row ∈ catalog := List.mem_of_mem_filter hrowmem
    have hid : v.stock_id = row.stock_id := by rw [← htr]; rfl
    have hsome : (catalog.find? (fun w => w.stock_id == v.stock_id)).isSome := by
      rw [List.find?_isSome]
      exact ⟨row, hrowcat, by rw [hid]; exact beq_self_eq_true _⟩
    obtain ⟨w, hw⟩ := Option.isSome_iff_exists.mp hsome
    have hpw : w.stock_id = v.stock_id := by
      have := List.find?_some hw
      simpa using this
    have hwcat : w ∈ catalog := List.mem_of_find?_eq_some hw
    have hweq : w = row :=
      List.inj_on_of_nodup_map hnodup hwcat hrowcat (by rw [hpw, hid])
    unfold get_vehicle_details
    simp only [pyIntOfInput]
    rw [hw, hweq]
    simp [htr]

/-- C9 witness: a vehicle from an unconstrained search over the demo catalog
round-trips through the stock-id lookup. -/
theorem search_details_roundtrip_witness :
    get_vehicle_details demoCatalog
      (.ofInt (toVehicleSearchResult demoRow1).stock_id) =
      .ok (toVehicleSearchResult demoRow1) :=
  search_details_roundtrip demoCatalog 2025 none none none none none
    { results := demoCatalog.map toVehicleSearchResult, total_count := 3 }
    (toVehicleSearchResult demoRow1)
    (by decide) (by decide) (by decide)

/-- C5: when the ambiguous-model short-circuit does not apply and the search
(with make and/or model criteria) returns zero matches, the handler converts
the result into a clarification exactly when a fuzzy suggestion exists for
the given make or for the given model (0.8 cutoff, at most 3 candidates, the
first suggestion of each kind used); with no suggestion the empty search
result is returned unchanged. -/
theorem zero_result_clarify_iff_suggestion (catalog : List VehicleRow) (cy : Int)
    (decision : AgentDecision) (r : SearchResults)
    (hnoamb : ¬(optStrTruthy decision.model = true ∧ optStrTruthy decision.make = false ∧
        1 < (get_makes_for_model catalog (decision.model.getD "")).length))
    (hs : search_vehicles catalog cy decision.make decision.model decision.year none
        decision.price_max = .ok r)
    (hzero : r.total_count = 0)
    (hcrit : optStrTruthy decision.make = true ∨ optStrTruthy decision.model = true) :
    (handle_search_cars catalog cy decision =
        .clarifyResult (noMatchSuggestMsg (suggestionParts catalog decision)) [] decision
      ↔ (handlerMakeSuggestions catalog decision ≠ [] ∨
         handlerModelSuggestions catalog decision ≠ [])) ∧
    (handlerMakeSuggestions catalog decision = [] →
     handlerModelSuggestions catalog decision = [] →
      handle_search_cars catalog cy decision = .searchCarsResult r decision) := by
  have hgo : handle_search_cars catalog cy decision =
      handle_search_cars_go catalog cy decision := by
    unfold handle_search_cars
    by_cases hc : (optStrTruthy decision.model && !(optStrTruthy decision.make)) = true
    · rw [if_pos hc]
      have hno : ¬(1 < (get_makes_for_model catalog (decision.model.getD "")).length) := by
        intro hlen
        have hc1 := (Bool.and_eq_true _ _).mp hc
        exact hnoamb ⟨hc1.1, by simpa using hc1.2, hlen⟩
      rw [if_neg hno]
    · rw [if_neg hc]
  have hcond : (r.total_count == 0 &&
      (optStrTruthy decision.make || optStrTruthy decision.model)) = true := by
    rcases hcrit with h | h <;> simp [hzero, h]
  have hgo2 : handle_search_cars_go catalog cy decision =
      (match suggestionParts catalog decision with
       | [] => .searchCarsResult r decision
       | parts => .clarifyResult (noMatchSuggestMsg parts) [] decision) := by
    unfold handle_search_cars_go
    rw [hs]
    simp only [hcond, if_true]
    try rfl
  rw [hgo, hgo2]
  cases hm : handlerMakeSuggestions catalog decision with
  | cons s t =>
    constructor
    · have hparts : suggestionParts catalog decision =
          ("marca '" ++ s ++ "'") ::
            (match handlerModelSuggestions catalog decision with
             | s2 :: _ => ["modelo '" ++ s2 ++ "'"]
             | [] => []) := by
        unfold suggestionParts
        rw [hm]
        rfl
      rw [hparts]
      simp
    · intro hmz
      exact absurd hmz (by simp)
  | nil =>
    cases hmod : handlerModelSuggestions catalog decision with
    | cons s2 t2 =>
      constructor
      · have hparts : suggestionParts catalog decision = ["modelo '" ++ s2 ++ "'"] := by
          unfold suggestionParts
          rw [hm, hmod]
          rfl
        rw [hparts]
        simp
      · intro _ hmz
        exact absurd hmz (by simp)
    | nil =>
      have hparts : suggestionParts catalog decision = [] := by
        unfold suggestionParts
        rw [hm, hmod]
        rfl
      rw [hparts]
      constructor
      · simp
      · intro _ _
        rfl

/-- C5 witness: the misspelled make `Toyot` finds no vehicles but fuzzy-
matches `Toyota`, so the handler clarifies. -/
theorem zero_result_clarify_iff_suggestion_witness :
    handle_search_cars demoCatalog 2025 typoMakeDecision =
      .clarifyResult (noMatchSuggestMsg (suggestionParts demoCatalog typoMakeDecision))
        [] typoMakeDecision ∧
    handlerMakeSuggestions demoCatalog typoMakeDecision ≠ [] :=
  ⟨(zero_result_clarify_iff_suggestion demoCatalog 2025 typoMakeDecision
      { results := [], total_count := 0 }
      (by decide) (by decide) rfl (Or.inl (by decide))).1.mpr (Or.inl (by decide)),
   by decide⟩
